import Mathlib

/-!
Verification of the call-analysis orchestration core of the Calmate backend.

The Python source under `agentic-backed/` is shallowly embedded here:
* Python exceptions become the `PyErr` sum type; fallible operations return
  `Except PyErr _`.
* `json.loads` (standard library, external to the repository) is abstracted as
  a parameter `loads : List Char → Option JValue`; the repository's own
  fence-stripping code (`BaseAgent._parse_json_response`) is embedded exactly,
  with `Python str.find` / slicing / `strip` semantics modelled on `List Char`.
* pydantic model construction (`Model(**result_dict)`) becomes a `validate`
  function from `JValue` to `Option` of the structure, mirroring the field
  requirements (`ge=0` bounds, required vs defaulted fields, `Optional`).
* The LLM call is non-deterministic and external; each agent pipeline takes the
  outcome of `model.generate_content` (a `GenResponse` or a transport error)
  as a parameter, and the orchestrator takes the tuple of the five unit
  outcomes (the value of `asyncio.gather(..., return_exceptions=True)`),
  wrapped in `Except String` for the defensive `except` branch around the
  gather call itself.
* `datetime.utcnow().isoformat()` is a parameter `now : String`.
* Python floats (durations) are modelled as `Rat`.
-/

/-- Python exception values, by class, carrying `str(e)`. -/
inductive PyErr where
  | runtime (msg : String)
  | value (msg : String)
  | validation (msg : String)
deriving DecidableEq, Repr

/-- Parsed JSON values (the result of `json.loads`); numbers as rationals. -/
inductive JValue where
  | null
  | bool (b : Bool)
  | num (q : Rat)
  | str (s : String)
  | arr (xs : List JValue)
  | obj (fields : List (String × JValue))

/-- Python dict lookup `d.get(key)` (JSON objects have unique keys). -/
def jLookup : List (String × JValue) → String → Option JValue
  | [], _ => none
  | (k, v) :: rest, key => if k = key then some v else jLookup rest key

/-- Python truthiness of a JSON-shaped value. -/
def pyTruthy : JValue → Bool
  | .null => false
  | .bool b => b
  | .num q => q ≠ 0
  | .str s => s ≠ ""
  | .arr xs => !xs.isEmpty
  | .obj fs => !fs.isEmpty

/- ### Python string primitives used by `BaseAgent._parse_json_response` -/

/-- `sub` is a prefix of `l` (character-exact). -/
def startsWith : List Char → List Char → Bool
  | [], _ => true
  | _ :: _, [] => false
  | p :: ps, c :: cs => (p = c) && startsWith ps cs

/-- Index of the first occurrence of `sub` in `l`
(`str.find` returns this index, or `-1` which we model as `none`). -/
def findSub (sub : List Char) : List Char → Option Nat
  | [] => if startsWith sub [] then some 0 else none
  | c :: t =>
    if startsWith sub (c :: t) then some 0
    else (findSub sub t).map (· + 1)

/-- Python slice `l[a:b]` for `a ≥ 0` and an arbitrary (possibly negative)
stop index `b`, with Python's clamping rules. -/
def pySlice (l : List Char) (a : Nat) (b : Int) : List Char :=
  let stop : Nat := if b < 0 then ((l.length : Int) + b).toNat else min b.toNat l.length
  (l.take stop).drop a

/-- Python `str.strip()`: remove leading and trailing whitespace. -/
def pyStrip (l : List Char) : List Char :=
  ((l.dropWhile Char.isWhitespace).reverse.dropWhile Char.isWhitespace).reverse

/-- Python `sub in s` (substring containment). -/
def pyContains (sub l : List Char) : Bool := (findSub sub l).isSome

/-- The backtick character (written by code so that scanning tools do not
mistake it for quoted code). -/
def backtick : Char := '\x60'

def fenceJson : List Char := [backtick, backtick, backtick, 'j', 's', 'o', 'n']

def fence : List Char := [backtick, backtick, backtick]

/-- The fence-stripping step of `BaseAgent._parse_json_response`:
`response_text.find` positions, slice, `strip`, with `find` possibly
returning `-1` when a closing fence is absent. -/
def stripCodeFences (text : List Char) : List Char :=
  if pyContains fenceJson text then
    match findSub fenceJson text with
    | some i =>
      let jsonStart := i + 7
      let jsonEnd : Int :=
        match findSub fence (text.drop jsonStart) with
        | some j => ((jsonStart + j : Nat) : Int)
        | none => -1
      pyStrip (pySlice text jsonStart jsonEnd)
    | none => text
  else if pyContains fence text then
    match findSub fence text with
    | some i =>
      let jsonStart := i + 3
      let jsonEnd : Int :=
        match findSub fence (text.drop jsonStart) with
        | some j => ((jsonStart + j : Nat) : Int)
        | none => -1
      pyStrip (pySlice text jsonStart jsonEnd)
    | none => text
  else text

/-- `BaseAgent._parse_json_response`: strip code fences, then `json.loads`;
a `json.JSONDecodeError` becomes a `ValueError`. -/
def parse_json_response (loads : List Char → Option JValue)
    (response_text : String) : Except PyErr JValue :=
  let stripped := stripCodeFences response_text.toList
  match loads stripped with
  | some d => .ok d
  | none =>
    .error (.value ("Failed to parse JSON response: invalid JSON. Response: "
      ++ String.mk stripped))

/- ### Generation service (`BaseAgent.generate_response`) -/

/-- One response candidate from the generation service; `content` is `none`
when `candidate.content` is falsy, otherwise the list of parts. -/
structure Candidate where
  finish_reason : Int
  content : Option (List String)

/-- A response object from `model.generate_content`. -/
structure GenResponse where
  candidates : List Candidate
  text : String

/-- The message Python builds for a non-STOP finish reason
(`finish_reasons.get(candidate.finish_reason, f"Unknown ...")`). -/
def finishReasonText (r : Int) : String :=
  if r = 2 then "SAFETY - Response blocked by safety filters"
  else if r = 3 then "RECITATION - Response blocked due to recitation"
  else if r = 4 then "OTHER - Response stopped for other reasons"
  else "Unknown (" ++ toString r ++ ")"

/-- Python `"SAFETY" in str(e)` (case-sensitive substring test). -/
def containsSAFETY (s : String) : Bool := pyContains "SAFETY".toList s.toList

/-- `BaseAgent.generate_response`: the external call either raises (modelled
as `Except.error` with `str(e)`) or yields a `GenResponse`; every failure is
re-raised as `RuntimeError(f"Agent ... failed: ...")`. -/
def generate_response (model_name : String)
    (call : Except String GenResponse) : Except PyErr String :=
  match call with
  | .error e => .error (.runtime ("Agent " ++ model_name ++ " failed: " ++ e))
  | .ok response =>
    match response.candidates with
    | [] =>
      .error (.runtime ("Agent " ++ model_name ++ " failed: "
        ++ "No response candidates returned. Likely blocked by safety filters."))
    | candidate :: _ =>
      if candidate.finish_reason ≠ 1 then
        .error (.runtime ("Agent " ++ model_name ++ " failed: "
          ++ finishReasonText candidate.finish_reason))
      else
        match candidate.content with
        | none =>
          .error (.runtime ("Agent " ++ model_name ++ " failed: "
            ++ "Response has no content parts"))
        | some [] =>
          .error (.runtime ("Agent " ++ model_name ++ " failed: "
            ++ "Response has no content parts"))
        | some (_ :: _) => .ok response.text

/- ### Output schemas (`models/analysis_models.py`) and their pydantic
validation.  Counts are `Int` with the `ge=0` bound enforced at
construction, exactly as pydantic does. -/

structure SentimentCounts where
  positive : Int
  negative : Int
deriving DecidableEq, Repr

structure StressDetectionResult where
  stressed_detected : Bool
  confidence : Option Rat
deriving DecidableEq, Repr

structure SentimentAnalysisResult where
  sentiment_counts : SentimentCounts
deriving DecidableEq, Repr

structure StressorIdentificationResult where
  top_stressors : String
deriving DecidableEq, Repr

structure BlockerIdentificationResult where
  common_blockers : String
deriving DecidableEq, Repr

structure SeverityClassificationResult where
  is_severe_case : Bool
  severity_indicators : Option (List String)
deriving DecidableEq, Repr

/-- pydantic lax coercion to `bool`: a boolean, or the integers 0/1. -/
def asBool : JValue → Option Bool
  | .bool b => some b
  | .num q => if q = 0 then some false else if q = 1 then some true else none
  | _ => none

/-- pydantic lax coercion to `int`: an integral number. -/
def asInt : JValue → Option Int
  | .num q => if q.den = 1 then some q.num else none
  | _ => none

/-- pydantic coercion of a JSON array to `list[str]`. -/
def asStrList : List JValue → Option (List String)
  | [] => some []
  | .str s :: rest => (asStrList rest).map (s :: ·)
  | _ :: _ => none

/-- pydantic validation of `SentimentCounts` (both fields required,
both `ge=0`). -/
def SentimentCounts.validate : JValue → Option SentimentCounts
  | .obj fs =>
    match jLookup fs "positive", jLookup fs "negative" with
    | some vp, some vn =>
      match asInt vp, asInt vn with
      | some p, some n => if 0 ≤ p ∧ 0 ≤ n then some ⟨p, n⟩ else none
      | _, _ => none
    | _, _ => none
  | _ => none

/-- pydantic validation of `StressDetectionResult`
(`stressed_detected` required bool; `confidence` optional, in `[0,1]`). -/
def StressDetectionResult.validate : JValue → Option StressDetectionResult
  | .obj fs =>
    match jLookup fs "stressed_detected" with
    | some v =>
      match asBool v with
      | some b =>
        match jLookup fs "confidence" with
        | none => some ⟨b, none⟩
        | some .null => some ⟨b, none⟩
        | some (.num q) => if 0 ≤ q ∧ q ≤ 1 then some ⟨b, some q⟩ else none
        | some _ => none
      | none => none
    | none => none
  | _ => none

/-- pydantic validation of `SentimentAnalysisResult`
(`sentiment_counts` required nested model). -/
def SentimentAnalysisResult.validate : JValue → Option SentimentAnalysisResult
  | .obj fs =>
    match jLookup fs "sentiment_counts" with
    | some v => (SentimentCounts.validate v).map (⟨·⟩)
    | none => none
  | _ => none

/-- pydantic validation of `StressorIdentificationResult`
(`top_stressors` is a string, defaulting to `""`). -/
def StressorIdentificationResult.validate :
    JValue → Option StressorIdentificationResult
  | .obj fs =>
    match jLookup fs "top_stressors" with
    | none => some ⟨""⟩
    | some (.str s) => some ⟨s⟩
    | some _ => none
  | _ => none

/-- pydantic validation of `BlockerIdentificationResult`
(`common_blockers` is a string, defaulting to `""`). -/
def BlockerIdentificationResult.validate :
    JValue → Option BlockerIdentificationResult
  | .obj fs =>
    match jLookup fs "common_blockers" with
    | none => some ⟨""⟩
    | some (.str s) => some ⟨s⟩
    | some _ => none
  | _ => none

/-- pydantic validation of `SeverityClassificationResult`
(`is_severe_case` required bool; `severity_indicators` optional list of
strings, `None` allowed). -/
def SeverityClassificationResult.validate :
    JValue → Option SeverityClassificationResult
  | .obj fs =>
    match jLookup fs "is_severe_case" with
    | some v =>
      match asBool v with
      | some b =>
        match jLookup fs "severity_indicators" with
        | none => some ⟨b, none⟩
        | some .null => some ⟨b, none⟩
        | some (.arr xs) => (asStrList xs).map (fun l => ⟨b, some l⟩)
        | some _ => none
      | none => none
    | none => none
  | _ => none

/- ### The five Task Units (`agents/*.py`), model names from
`agents/config.py`.  Each pipeline is: generate → parse JSON → pydantic
validate; a pydantic failure raises `ValidationError`. -/

def STRESS_DETECTOR_MODEL : String := "gemini-flash-latest"

def SENTIMENT_ANALYZER_MODEL : String := "gemini-flash-latest"

def STRESSOR_FINDER_MODEL : String := "gemini-flash-latest"

def BLOCKER_FINDER_MODEL : String := "gemini-flash-latest"

def SEVERITY_CLASSIFIER_MODEL : String := "gemini-pro-latest"

/-- `StressDetectorAgent.detect_stress`. -/
def detect_stress (loads : List Char → Option JValue)
    (call : Except String GenResponse) : Except PyErr StressDetectionResult :=
  match generate_response STRESS_DETECTOR_MODEL call with
  | .error e => .error e
  | .ok response_text =>
    match parse_json_response loads response_text with
    | .error e => .error e
    | .ok result_dict =>
      match StressDetectionResult.validate result_dict with
      | some r => .ok r
      | none => .error (.validation "validation error for StressDetectionResult")

/-- `SentimentAnalyzerAgent.analyze_sentiment`: the whole pipeline runs in a
`try` whose `except RuntimeError` returns neutral counts when `"SAFETY"` is
in the message and re-raises otherwise.  Only `generate_response` raises
`RuntimeError`; the parser raises `ValueError` and pydantic raises
`ValidationError`, neither of which is caught. -/
def analyze_sentiment (loads : List Char → Option JValue)
    (call : Except String GenResponse) : Except PyErr SentimentAnalysisResult :=
  match generate_response SENTIMENT_ANALYZER_MODEL call with
  | .error (.runtime msg) =>
    if containsSAFETY msg then .ok ⟨⟨0, 0⟩⟩ else .error (.runtime msg)
  | .error e => .error e
  | .ok response_text =>
    match parse_json_response loads response_text with
    | .error e => .error e
    | .ok result_dict =>
      match SentimentAnalysisResult.validate result_dict with
      | some r => .ok r
      | none => .error (.validation "validation error for SentimentAnalysisResult")

/-- `StressorFinderAgent.identify_stressors`. -/
def identify_stressors (loads : List Char → Option JValue)
    (call : Except String GenResponse) :
    Except PyErr StressorIdentificationResult :=
  match generate_response STRESSOR_FINDER_MODEL call with
  | .error e => .error e
  | .ok response_text =>
    match parse_json_response loads response_text with
    | .error e => .error e
    | .ok result_dict =>
      match StressorIdentificationResult.validate result_dict with
      | some r => .ok r
      | none =>
        .error (.validation "validation error for StressorIdentificationResult")

/-- `BlockerFinderAgent.identify_blockers`. -/
def identify_blockers (loads : List Char → Option JValue)
    (call : Except String GenResponse) :
    Except PyErr BlockerIdentificationResult :=
  match generate_response BLOCKER_FINDER_MODEL call with
  | .error e => .error e
  | .ok response_text =>
    match parse_json_response loads response_text with
    | .error e => .error e
    | .ok result_dict =>
      match BlockerIdentificationResult.validate result_dict with
      | some r => .ok r
      | none =>
        .error (.validation "validation error for BlockerIdentificationResult")

/-- `SeverityClassifierAgent.classify_severity` (duration only feeds the
prompt, which is external non-determinism here). -/
def classify_severity (loads : List Char → Option JValue)
    (call : Except String GenResponse) :
    Except PyErr SeverityClassificationResult :=
  match generate_response SEVERITY_CLASSIFIER_MODEL call with
  | .error e => .error e
  | .ok response_text =>
    match parse_json_response loads response_text with
    | .error e => .error e
    | .ok result_dict =>
      match SeverityClassificationResult.validate result_dict with
      | some r => .ok r
      | none =>
        .error (.validation "validation error for SeverityClassificationResult")

/- ### Report models (`models/analysis_models.py`) -/

structure CallAnalysis where
  stressed_detected : Bool
  sentiment_counts : SentimentCounts
  top_stressors : String
  common_blockers : String
  is_severe_case : Bool
deriving DecidableEq, Repr

structure CallAnalysisReport where
  call_id : String
  call_duration_seconds : Rat
  analysis_timestamp : String
  analysis : CallAnalysis
deriving DecidableEq, Repr

/-- `CallAnalysisReport.create`: pydantic validates
`call_duration_seconds: float = Field(ge=0)` at construction (a violation
raises `ValidationError`); the timestamp is `utcnow().isoformat() + "Z"`,
with `utcnow().isoformat()` passed in as `now`. -/
def CallAnalysisReport.create (call_id : String) (call_duration_seconds : Rat)
    (now : String) (stressed_detected : Bool) (sentiment_counts : SentimentCounts)
    (top_stressors common_blockers : String) (is_severe_case : Bool) :
    Except PyErr CallAnalysisReport :=
  if 0 ≤ call_duration_seconds then
    .ok { call_id := call_id
          call_duration_seconds := call_duration_seconds
          analysis_timestamp := now ++ "Z"
          analysis := { stressed_detected := stressed_detected
                        sentiment_counts := sentiment_counts
                        top_stressors := top_stressors
                        common_blockers := common_blockers
                        is_severe_case := is_severe_case } }
  else
    .error (.validation
      "call_duration_seconds: Input should be greater than or equal to 0")

/- ### Orchestrator (`agents/orchestrator.py`) -/

/-- A transcript entry (`models/processed_call.py`, `TranscriptMessage`). -/
structure TranscriptMessage where
  role : String
  content : String
deriving DecidableEq, Repr

/-- The tuple produced by `asyncio.gather(..., return_exceptions=True)`:
each `_run_*` wrapper catches any exception from its agent and returns it as
a value, so each slot is the agent's `Except` outcome. -/
structure GatherResults where
  stress_result : Except PyErr StressDetectionResult
  sentiment_result : Except PyErr SentimentAnalysisResult
  stressor_result : Except PyErr StressorIdentificationResult
  blocker_result : Except PyErr BlockerIdentificationResult
  severity_result : Except PyErr SeverityClassificationResult

/-- `OrchestratorAgent._extract_result`: the default on failure, the field
on success (the `getattr` default is dead because every schema declares the
field the orchestrator reads). -/
def extract_result {α β : Type} (result : Except PyErr α)
    (field : α → β) (default : β) : β :=
  match result with
  | .error _ => default
  | .ok v => field v

/-- `OrchestratorAgent._extract_sentiment`: `SentimentCounts(0, 0)` on
failure, the result's counts on success. -/
def extract_sentiment (result : Except PyErr SentimentAnalysisResult) :
    SentimentCounts :=
  match result with
  | .error _ => ⟨0, 0⟩
  | .ok v => v.sentiment_counts

/-- `OrchestratorAgent.analyze_call`: if the gather call itself raises, a
`RuntimeError` aborts the whole operation; otherwise each field is reduced
from its unit's outcome and the report is assembled. The transcript feeds
only the prompts (external non-determinism), not the reduction. -/
def OrchestratorAgent.analyze_call (call_id : String)
    (transcript : List TranscriptMessage)
    (duration_seconds : Rat) (now : String)
    (gather : Except String GatherResults) : Except PyErr CallAnalysisReport :=
  match gather with
  | .error e =>
    .error (.runtime ("Critical failure in agent orchestration: " ++ e))
  | .ok results =>
    let stressed_detected :=
      extract_result results.stress_result (fun r => r.stressed_detected) false
    let sentiment_counts := extract_sentiment results.sentiment_result
    let top_stressors :=
      extract_result results.stressor_result (fun r => r.top_stressors) ""
    let common_blockers :=
      extract_result results.blocker_result (fun r => r.common_blockers) ""
    let is_severe_case :=
      extract_result results.severity_result (fun r => r.is_severe_case) false
    CallAnalysisReport.create call_id duration_seconds now stressed_detected
      sentiment_counts top_stressors common_blockers is_severe_case

/- ### Entry point (`call_analyzer.py`) -/

/-- The `processed_call_data` dict passed to `call_analyzer.analyze_call`;
`none` models an absent key. -/
structure ProcessedCallData where
  call_id : Option String
  duration_seconds : Option Rat
  transcript : Option (List TranscriptMessage)

/-- `call_analyzer.analyze_call`: required-field validation, then the
non-empty-transcript validation, then the orchestrator. -/
def CallAnalyzer.analyze_call (d : ProcessedCallData) (now : String)
    (gather : Except String GatherResults) : Except PyErr CallAnalysisReport :=
  match d.call_id with
  | none => .error (.value "Missing required field: call_id")
  | some call_id =>
    match d.duration_seconds with
    | none => .error (.value "Missing required field: duration_seconds")
    | some duration_seconds =>
      match d.transcript with
      | none => .error (.value "Missing required field: transcript")
      | some transcript =>
        if transcript.length = 0 then
          .error (.value "Transcript must be a non-empty list")
        else
          OrchestratorAgent.analyze_call call_id transcript duration_seconds
            now gather

/- ### Persistence flattening (`models/analysis_models.py`, `CallReportDB`) -/

structure CallReportDB where
  call_id : String
  call_duration_seconds : Rat
  stressed_detected : Bool
  sentiment_counts : List (String × Int)
  top_stressors : Option String
  common_blockers : Option String
  is_severe_case : Bool
deriving DecidableEq, Repr

/-- Python string truthiness. -/
def pyStrTruthy (s : String) : Bool := s ≠ ""

/-- `CallReportDB.from_analysis_report`: a falsy (empty) stressor/blocker
string flattens to `None`; since `CallAnalysis` types both fields as `str`,
the `isinstance(…, str)` branch always fires for truthy values and the list
branches are dead.  `sentiment_counts.model_dump()` is the two-key dict. -/
def CallReportDB.from_analysis_report (report : CallAnalysisReport) :
    CallReportDB :=
  let analysis := report.analysis
  let top_stressors_str : Option String :=
    if pyStrTruthy analysis.top_stressors then some analysis.top_stressors
    else none
  let common_blockers_str : Option String :=
    if pyStrTruthy analysis.common_blockers then some analysis.common_blockers
    else none
  { call_id := report.call_id
    call_duration_seconds := report.call_duration_seconds
    stressed_detected := analysis.stressed_detected
    sentiment_counts :=
      [("positive", analysis.sentiment_counts.positive),
       ("negative", analysis.sentiment_counts.negative)]
    top_stressors := top_stressors_str
    common_blockers := common_blockers_str
    is_severe_case := analysis.is_severe_case }

/-- Assoc-list lookup with default, i.e. Python `dict.get(key, default)`. -/
def intLookup : List (String × Int) → String → Int → Int
  | [], _, default => default
  | (k, v) :: rest, key, default =>
    if k = key then v else intLookup rest key default

/-- Modelled from the spec: the repository stores `CallReportDB` rows but has
no function reconstructing the Composite Analysis view from a row; spec §8
("Round-trip: flattening a report for persistence and reconstructing the
Composite Analysis view from the flattened form preserves all five semantic
field values") implies the evident inverse reading: each flattened column is
read back into its analysis field, a `NULL` stressor/blocker column reads
back as the empty comma-joined string, and the JSONB sentiment dict reads
back into the two counts. -/
def CallReportDB.to_analysis (db : CallReportDB) : CallAnalysis :=
  { stressed_detected := db.stressed_detected
    sentiment_counts :=
      ⟨intLookup db.sentiment_counts "positive" 0,
       intLookup db.sentiment_counts "negative" 0⟩
    top_stressors := db.top_stressors.getD ""
    common_blockers := db.common_blockers.getD ""
    is_severe_case := db.is_severe_case }

/- ### Webhook message transformation
(`processors/call_report_processor.py`, `_transform_messages`) -/

/-- pydantic construction `TranscriptMessage(role=…, content=…)`: both
fields are `str`; pydantic v2 does not coerce other JSON values to `str`. -/
def TranscriptMessage.construct (role content : JValue) :
    Except PyErr TranscriptMessage :=
  match role, content with
  | .str r, .str c => .ok ⟨r, c⟩
  | _, _ => .error (.validation "Input should be a valid string")

/-- `_transform_messages`: skip non-dict entries, default the role to
`"unknown"` and the content to `""` for absent keys, keep only truthy
content; a non-string role/content reaching the pydantic constructor raises
out of the whole transformation. -/
def transform_messages : List JValue → Except PyErr (List TranscriptMessage)
  | [] => .ok []
  | raw_msg :: rest =>
    match raw_msg with
    | .obj fs =>
      let role := (jLookup fs "role").getD (.str "unknown")
      let content := (jLookup fs "message").getD (.str "")
      if pyTruthy content then
        match TranscriptMessage.construct role content with
        | .error e => .error e
        | .ok tm => (transform_messages rest).map (tm :: ·)
      else transform_messages rest
    | _ => transform_messages rest

/- ### Helper lemmas -/

/-- The report `analyze_call` assembles from a gather result. -/
def reportOf (call_id : String) (duration_seconds : Rat) (now : String)
    (results : GatherResults) : CallAnalysisReport :=
  { call_id := call_id
    call_duration_seconds := duration_seconds
    analysis_timestamp := now ++ "Z"
    analysis :=
      { stressed_detected :=
          extract_result results.stress_result (fun r => r.stressed_detected) false
        sentiment_counts := extract_sentiment results.sentiment_result
        top_stressors :=
          extract_result results.stressor_result (fun r => r.top_stressors) ""
        common_blockers :=
          extract_result results.blocker_result (fun r => r.common_blockers) ""
        is_severe_case :=
          extract_result results.severity_result (fun r => r.is_severe_case) false } }

theorem analyze_call_ok (call_id : String) (t : List TranscriptMessage)
    (dur : Rat) (now : String) (results : GatherResults) (h : 0 ≤ dur) :
    OrchestratorAgent.analyze_call call_id t dur now (.ok results)
      = .ok (reportOf call_id dur now results) := by
  simp [OrchestratorAgent.analyze_call, CallAnalysisReport.create, reportOf, h]

theorem analyze_call_gather_error (call_id : String)
    (t : List TranscriptMessage) (dur : Rat) (now : String) (e : String) :
    OrchestratorAgent.analyze_call call_id t dur now (.error e)
      = .error (.runtime ("Critical failure in agent orchestration: " ++ e)) := by
  simp [OrchestratorAgent.analyze_call]

/- ### Claim theorems -/

/-- C1: when all five Task Units fail, `analyze_call` still returns a
complete report whose analysis fields are exactly the documented defaults
(`stressed_detected = false`, counts `0/0`, empty stressor and blocker
strings, `is_severe_case = false`), and no exception reaches the caller. -/
theorem all_units_failed_yields_default_report (call_id now : String)
    (t : List TranscriptMessage) (dur : Rat) (e1 e2 e3 e4 e5 : PyErr)
    (h : 0 ≤ dur) :
    OrchestratorAgent.analyze_call call_id t dur now
        (.ok ⟨.error e1, .error e2, .error e3, .error e4, .error e5⟩)
      = .ok { call_id := call_id
              call_duration_seconds := dur
              analysis_timestamp := now ++ "Z"
              analysis := { stressed_detected := false
                            sentiment_counts := ⟨0, 0⟩
                            top_stressors := ""
                            common_blockers := ""
                            is_severe_case := false } } := by
  rw [analyze_call_ok call_id t dur now _ h]
  rfl

theorem all_units_failed_yields_default_report_witness :
    OrchestratorAgent.analyze_call "call-1" [] 45 "2025-10-12T00:00:00"
        (.ok ⟨.error (.runtime "a"), .error (.runtime "b"),
              .error (.value "c"), .error (.validation "d"),
              .error (.runtime "e")⟩)
      = .ok { call_id := "call-1"
              call_duration_seconds := 45
              analysis_timestamp := "2025-10-12T00:00:00" ++ "Z"
              analysis := { stressed_detected := false
                            sentiment_counts := ⟨0, 0⟩
                            top_stressors := ""
                            common_blockers := ""
                            is_severe_case := false } } :=
  all_units_failed_yields_default_report "call-1" "2025-10-12T00:00:00" [] 45
    (.runtime "a") (.runtime "b") (.value "c") (.validation "d") (.runtime "e")
    (by decide)

/-- C2: per-unit failures are fully absorbed — for every combination of the
five unit outcomes the operation returns a complete report; the only failure
that propagates is the `RuntimeError` (`OrchestrationFailure`) raised when
the gather dispatch itself fails, and then no report is produced. -/
theorem unit_failures_absorbed_only_orchestration_propagates
    (call_id now : String) (t : List TranscriptMessage) (dur : Rat)
    (h : 0 ≤ dur) :
    (∀ results : GatherResults, ∃ r,
        OrchestratorAgent.analyze_call call_id t dur now (.ok results) = .ok r)
    ∧ (∀ e : String,
        OrchestratorAgent.analyze_call call_id t dur now (.error e)
          = .error (.runtime ("Critical failure in agent orchestration: " ++ e))) := by
  constructor
  · intro results
    exact ⟨reportOf call_id dur now results, analyze_call_ok call_id t dur now results h⟩
  · intro e
    exact analyze_call_gather_error call_id t dur now e

theorem unit_failures_absorbed_only_orchestration_propagates_witness :
    (∃ r, OrchestratorAgent.analyze_call "call-2" [] 10 "T"
        (.ok ⟨.error (.runtime "boom"), .ok ⟨⟨1, 2⟩⟩, .error (.value "v"),
              .ok ⟨"approvals"⟩, .ok ⟨true, none⟩⟩) = .ok r)
    ∧ OrchestratorAgent.analyze_call "call-2" [] 10 "T" (.error "misuse")
        = .error (.runtime ("Critical failure in agent orchestration: " ++ "misuse")) :=
  ⟨(unit_failures_absorbed_only_orchestration_propagates "call-2" "T" [] 10
      (by decide)).1 _,
   (unit_failures_absorbed_only_orchestration_propagates "call-2" "T" [] 10
      (by decide)).2 "misuse"⟩

/-- C3: when all five Task Units succeed, every Composite Analysis field of
the report equals exactly the value of the one Task Result that sources it,
with no field influenced by any other unit's result. -/
theorem all_units_succeed_fields_exact (call_id now : String)
    (t : List TranscriptMessage) (dur : Rat)
    (r1 : StressDetectionResult) (r2 : SentimentAnalysisResult)
    (r3 : StressorIdentificationResult) (r4 : BlockerIdentificationResult)
    (r5 : SeverityClassificationResult) (h : 0 ≤ dur) :
    OrchestratorAgent.analyze_call call_id t dur now
        (.ok ⟨.ok r1, .ok r2, .ok r3, .ok r4, .ok r5⟩)
      = .ok { call_id := call_id
              call_duration_seconds := dur
              analysis_timestamp := now ++ "Z"
              analysis := { stressed_detected := r1.stressed_detected
                            sentiment_counts := r2.sentiment_counts
                            top_stressors := r3.top_stressors
                            common_blockers := r4.common_blockers
                            is_severe_case := r5.is_severe_case } } := by
  rw [analyze_call_ok call_id t dur now _ h]
  rfl

theorem all_units_succeed_fields_exact_witness :
    OrchestratorAgent.analyze_call "call-3" [] 45 "T"
        (.ok ⟨.ok ⟨true, some (1/2)⟩, .ok ⟨⟨3, 1⟩⟩, .ok ⟨"workload"⟩,
              .ok ⟨"approvals"⟩, .ok ⟨true, some ["self-harm mention"]⟩⟩)
      = .ok { call_id := "call-3"
              call_duration_seconds := 45
              analysis_timestamp := "T" ++ "Z"
              analysis := { stressed_detected := true
                            sentiment_counts := ⟨3, 1⟩
                            top_stressors := "workload"
                            common_blockers := "approvals"
                            is_severe_case := true } } :=
  all_units_succeed_fields_exact "call-3" "T" [] 45 ⟨true, some (1/2)⟩ ⟨⟨3, 1⟩⟩
    ⟨"workload"⟩ ⟨"approvals"⟩ ⟨true, some ["self-harm mention"]⟩ (by decide)

/-- C9: every report returned by `analyze_call` carries the `call_id` and
`duration_seconds` arguments unchanged, whatever the unit outcomes were. -/
theorem report_preserves_call_metadata (call_id now : String)
    (t : List TranscriptMessage) (dur : Rat)
    (gather : Except String GatherResults) (r : CallAnalysisReport)
    (h : OrchestratorAgent.analyze_call call_id t dur now gather = .ok r) :
    r.call_id = call_id ∧ r.call_duration_seconds = dur := by
  cases gather with
  | error e => simp [OrchestratorAgent.analyze_call] at h
  | ok results =>
    simp only [OrchestratorAgent.analyze_call, CallAnalysisReport.create] at h
    split at h
    · cases h
      exact ⟨rfl, rfl⟩
    · cases h

theorem report_preserves_call_metadata_witness :
    ({ call_id := "call-9"
       call_duration_seconds := 7
       analysis_timestamp := "T" ++ "Z"
       analysis := { stressed_detected := false
                     sentiment_counts := ⟨0, 0⟩
                     top_stressors := ""
                     common_blockers := ""
                     is_severe_case := false } } : CallAnalysisReport).call_id = "call-9"
    ∧ ({ call_id := "call-9"
         call_duration_seconds := 7
         analysis_timestamp := "T" ++ "Z"
         analysis := { stressed_detected := false
                       sentiment_counts := ⟨0, 0⟩
                       top_stressors := ""
                       common_blockers := ""
                       is_severe_case := false } } : CallAnalysisReport).call_duration_seconds = 7 :=
  report_preserves_call_metadata "call-9" "T" [] 7
    (.ok ⟨.error (.runtime "x"), .error (.runtime "x"), .error (.runtime "x"),
          .error (.runtime "x"), .error (.runtime "x")⟩) _ (by rfl)

/-- C8: an input whose transcript is the empty list is rejected by the
entry-point validation with a `ValueError`, for every possible gather
outcome — so the orchestrator's reduction never influences the result and
is never reached with an empty transcript. -/
theorem empty_transcript_rejected_before_run (call_id now : String)
    (dur : Rat) (gather : Except String GatherResults) :
    CallAnalyzer.analyze_call ⟨some call_id, some dur, some []⟩ now gather
      = .error (.value "Transcript must be a non-empty list") := by
  simp [CallAnalyzer.analyze_call]

/-- C6: flattening a report into the persistence form and reconstructing
the Composite Analysis view preserves all five semantic field values. -/
theorem db_flatten_roundtrip (report : CallAnalysisReport) :
    (CallReportDB.from_analysis_report report).to_analysis = report.analysis := by
  obtain ⟨cid, dur, ts, ⟨sd, ⟨p, n⟩, tops, blocks, sev⟩⟩ := report
  simp only [CallReportDB.from_analysis_report, CallReportDB.to_analysis,
    pyStrTruthy, intLookup]
  by_cases ht : tops = "" <;> by_cases hb : blocks = "" <;>
    simp [ht, hb, intLookup]

/- ### C5: sentiment counts are non-negative -/

theorem validate_counts_nonneg {j : JValue} {c : SentimentCounts}
    (h : SentimentCounts.validate j = some c) :
    0 ≤ c.positive ∧ 0 ≤ c.negative := by
  cases j <;> try exact Option.noConfusion h
  next fs =>
  simp only [SentimentCounts.validate] at h
  rcases h1 : jLookup fs "positive" with _ | vp <;>
    rcases h2 : jLookup fs "negative" with _ | vn <;>
      simp only [h1, h2] at h <;> try exact Option.noConfusion h
  rcases h3 : asInt vp with _ | p <;> rcases h4 : asInt vn with _ | n <;>
    simp only [h3, h4] at h <;> try exact Option.noConfusion h
  split at h
  · injection h with h
    subst h
    assumption
  · exact Option.noConfusion h

theorem analyze_sentiment_ok_nonneg {loads : List Char → Option JValue}
    {call : Except String GenResponse} {r : SentimentAnalysisResult}
    (h : analyze_sentiment loads call = .ok r) :
    0 ≤ r.sentiment_counts.positive ∧ 0 ≤ r.sentiment_counts.negative := by
  unfold analyze_sentiment at h
  split at h
  · split at h
    · injection h with h
      subst h
      exact ⟨le_refl 0, le_refl 0⟩
    · exact Except.noConfusion h
  · exact Except.noConfusion h
  · rename_i response_text
    split at h
    · exact Except.noConfusion h
    · rename_i result_dict hparse
      rcases hv : SentimentAnalysisResult.validate result_dict with _ | v <;>
        simp only [hv] at h
      · exact Except.noConfusion h
      · injection h with h
        subst h
        cases result_dict <;> try exact Option.noConfusion hv
        next fs =>
        simp only [SentimentAnalysisResult.validate] at hv
        rcases hl : jLookup fs "sentiment_counts" with _ | w <;>
          simp only [hl] at hv <;> try exact Option.noConfusion hv
        rcases hc : SentimentCounts.validate w with _ | c <;>
          simp only [hc, Option.map] at hv <;> try exact Option.noConfusion hv
        injection hv with hv
        subst hv
        exact validate_counts_nonneg hc

/-- C5: in every report `analyze_call` returns, the sentiment counts are
non-negative — whether the sentiment Task Unit (whose outcome is the result
of its full generate/parse/validate pipeline) succeeded or failed. -/
theorem report_sentiment_counts_nonneg (call_id now : String)
    (t : List TranscriptMessage) (dur : Rat)
    (loads : List Char → Option JValue) (call : Except String GenResponse)
    (o1 : Except PyErr StressDetectionResult)
    (o3 : Except PyErr StressorIdentificationResult)
    (o4 : Except PyErr BlockerIdentificationResult)
    (o5 : Except PyErr SeverityClassificationResult) (r : CallAnalysisReport)
    (h : OrchestratorAgent.analyze_call call_id t dur now
        (.ok ⟨o1, analyze_sentiment loads call, o3, o4, o5⟩) = .ok r) :
    0 ≤ r.analysis.sentiment_counts.positive
    ∧ 0 ≤ r.analysis.sentiment_counts.negative := by
  simp only [OrchestratorAgent.analyze_call, CallAnalysisReport.create] at h
  split at h
  · injection h with h
    subst h
    cases hs : analyze_sentiment loads call with
    | error e => simp [extract_sentiment, hs]
    | ok v =>
      simpa [extract_sentiment, hs] using analyze_sentiment_ok_nonneg hs
  · exact Except.noConfusion h

theorem report_sentiment_counts_nonneg_witness :
    0 ≤ ({ call_id := "call-5"
           call_duration_seconds := 45
           analysis_timestamp := "T" ++ "Z"
           analysis := { stressed_detected := false
                         sentiment_counts := ⟨2, 1⟩
                         top_stressors := ""
                         common_blockers := ""
                         is_severe_case := false } } : CallAnalysisReport).analysis.sentiment_counts.positive
    ∧ 0 ≤ ({ call_id := "call-5"
             call_duration_seconds := 45
             analysis_timestamp := "T" ++ "Z"
             analysis := { stressed_detected := false
                           sentiment_counts := ⟨2, 1⟩
                           top_stressors := ""
                           common_blockers := ""
                           is_severe_case := false } } : CallAnalysisReport).analysis.sentiment_counts.negative :=
  report_sentiment_counts_nonneg "call-5" "T" [] 45
    (fun _ => some (.obj [("sentiment_counts",
        .obj [("positive", .num 2), ("negative", .num 1)])]))
    (.ok ⟨[⟨1, some ["p"]⟩], "resp"⟩)
    (.error (.runtime "x")) (.error (.runtime "x")) (.error (.runtime "x"))
    (.error (.runtime "x")) _ (by rfl)

/- ### C4: ContentBlocked (safety rejection) -/

/-- A generation outcome blocked by safety filters: finish reason 2. -/
def blockedCall : Except String GenResponse := .ok ⟨[⟨2, none⟩], ""⟩

/-- C4: a safety-moderation rejection (finish reason 2) is distinguishable
from the other failure kinds by the `"SAFETY"` marker in the unit's error
message (for every agent model name), and for each of the five Task Units a
blocked generation ends in that unit's field being its neutral default in a
successfully returned report — not a hard error escaping the operation.
(The sentiment unit even substitutes its neutral counts inside the unit.) -/
theorem content_blocked_distinguishable_and_defaulted
    (loads : List Char → Option JValue) (call_id now : String)
    (t : List TranscriptMessage) (dur : Rat)
    (o1 : Except PyErr StressDetectionResult)
    (o2 : Except PyErr SentimentAnalysisResult)
    (o3 : Except PyErr StressorIdentificationResult)
    (o4 : Except PyErr BlockerIdentificationResult)
    (o5 : Except PyErr SeverityClassificationResult)
    (h : 0 ≤ dur) :
    (∀ m ∈ [STRESS_DETECTOR_MODEL, SENTIMENT_ANALYZER_MODEL,
            STRESSOR_FINDER_MODEL, BLOCKER_FINDER_MODEL,
            SEVERITY_CLASSIFIER_MODEL],
        containsSAFETY ("Agent " ++ m ++ " failed: " ++ finishReasonText 2) = true
        ∧ containsSAFETY ("Agent " ++ m ++ " failed: " ++ finishReasonText 3) = false
        ∧ containsSAFETY ("Agent " ++ m ++ " failed: " ++ finishReasonText 4) = false
        ∧ containsSAFETY ("Agent " ++ m ++ " failed: "
            ++ "Response has no content parts") = false)
    ∧ analyze_sentiment loads blockedCall = .ok ⟨⟨0, 0⟩⟩
    ∧ (∃ r, OrchestratorAgent.analyze_call call_id t dur now
          (.ok ⟨detect_stress loads blockedCall, o2, o3, o4, o5⟩) = .ok r
        ∧ r.analysis.stressed_detected = false)
    ∧ (∃ r, OrchestratorAgent.analyze_call call_id t dur now
          (.ok ⟨o1, analyze_sentiment loads blockedCall, o3, o4, o5⟩) = .ok r
        ∧ r.analysis.sentiment_counts = ⟨0, 0⟩)
    ∧ (∃ r, OrchestratorAgent.analyze_call call_id t dur now
          (.ok ⟨o1, o2, identify_stressors loads blockedCall, o4, o5⟩) = .ok r
        ∧ r.analysis.top_stressors = "")
    ∧ (∃ r, OrchestratorAgent.analyze_call call_id t dur now
          (.ok ⟨o1, o2, o3, identify_blockers loads blockedCall, o5⟩) = .ok r
        ∧ r.analysis.common_blockers = "")
    ∧ (∃ r, OrchestratorAgent.analyze_call call_id t dur now
          (.ok ⟨o1, o2, o3, o4, classify_severity loads blockedCall⟩) = .ok r
        ∧ r.analysis.is_severe_case = false) :=
  ⟨by decide, by rfl,
   ⟨_, analyze_call_ok call_id t dur now _ h, by rfl⟩,
   ⟨_, analyze_call_ok call_id t dur now _ h, by rfl⟩,
   ⟨_, analyze_call_ok call_id t dur now _ h, by rfl⟩,
   ⟨_, analyze_call_ok call_id t dur now _ h, by rfl⟩,
   ⟨_, analyze_call_ok call_id t dur now _ h, by rfl⟩⟩

theorem content_blocked_distinguishable_and_defaulted_witness :
    (∀ m ∈ [STRESS_DETECTOR_MODEL, SENTIMENT_ANALYZER_MODEL,
            STRESSOR_FINDER_MODEL, BLOCKER_FINDER_MODEL,
            SEVERITY_CLASSIFIER_MODEL],
        containsSAFETY ("Agent " ++ m ++ " failed: " ++ finishReasonText 2) = true
        ∧ containsSAFETY ("Agent " ++ m ++ " failed: " ++ finishReasonText 3) = false
        ∧ containsSAFETY ("Agent " ++ m ++ " failed: " ++ finishReasonText 4) = false
        ∧ containsSAFETY ("Agent " ++ m ++ " failed: "
            ++ "Response has no content parts") = false)
    ∧ analyze_sentiment (fun _ => none) blockedCall = .ok ⟨⟨0, 0⟩⟩
    ∧ (∃ r, OrchestratorAgent.analyze_call "call-4" [] 45 "T"
          (.ok ⟨detect_stress (fun _ => none) blockedCall,
                .error (.runtime "x"), .error (.runtime "x"),
                .error (.runtime "x"), .error (.runtime "x")⟩) = .ok r
        ∧ r.analysis.stressed_detected = false)
    ∧ (∃ r, OrchestratorAgent.analyze_call "call-4" [] 45 "T"
          (.ok ⟨.error (.runtime "x"),
                analyze_sentiment (fun _ => none) blockedCall,
                .error (.runtime "x"), .error (.runtime "x"),
                .error (.runtime "x")⟩) = .ok r
        ∧ r.analysis.sentiment_counts = ⟨0, 0⟩)
    ∧ (∃ r, OrchestratorAgent.analyze_call "call-4" [] 45 "T"
          (.ok ⟨.error (.runtime "x"), .error (.runtime "x"),
                identify_stressors (fun _ => none) blockedCall,
                .error (.runtime "x"), .error (.runtime "x")⟩) = .ok r
        ∧ r.analysis.top_stressors = "")
    ∧ (∃ r, OrchestratorAgent.analyze_call "call-4" [] 45 "T"
          (.ok ⟨.error (.runtime "x"), .error (.runtime "x"),
                .error (.runtime "x"),
                identify_blockers (fun _ => none) blockedCall,
                .error (.runtime "x")⟩) = .ok r
        ∧ r.analysis.common_blockers = "")
    ∧ (∃ r, OrchestratorAgent.analyze_call "call-4" [] 45 "T"
          (.ok ⟨.error (.runtime "x"), .error (.runtime "x"),
                .error (.runtime "x"), .error (.runtime "x"),
                classify_severity (fun _ => none) blockedCall⟩) = .ok r
        ∧ r.analysis.is_severe_case = false) :=
  content_blocked_distinguishable_and_defaulted (fun _ => none) "call-4" "T"
    [] 45 (.error (.runtime "x")) (.error (.runtime "x"))
    (.error (.runtime "x")) (.error (.runtime "x")) (.error (.runtime "x"))
    (by decide)

/- ### C7: fence stripping and JSON rejection -/

theorem startsWith_append (p r : List Char) : startsWith p (p ++ r) = true := by
  induction p with
  | nil => rfl
  | cons c t ih => simp [startsWith, ih]

theorem findSub_of_startsWith (sub l : List Char)
    (h : startsWith sub l = true) : findSub sub l = some 0 := by
  cases l with
  | nil => simp [findSub, h]
  | cons c t => simp [findSub, h]

theorem findSub_append_self (sub r : List Char) :
    findSub sub (sub ++ r) = some 0 :=
  findSub_of_startsWith _ _ (startsWith_append sub r)

theorem findSub_fence_no_backtick (body rest : List Char)
    (hb : ∀ c ∈ body, c ≠ backtick) :
    findSub fence (body ++ (fence ++ rest)) = some body.length := by
  induction body with
  | nil => exact findSub_append_self fence rest
  | cons c t ih =>
    have hc : c ≠ backtick := hb c (by simp)
    have hsw : startsWith fence (c :: (t ++ (fence ++ rest))) = false := by
      simp [fence, startsWith, Ne.symm hc]
    simp [findSub, hsw, ih (fun x hx => hb x (by simp [hx]))]

theorem drop_append_len (a b : List Char) : (a ++ b).drop a.length = b := by
  induction a with
  | nil => rfl
  | cons c t ih => simp [ih]

theorem take_append_len_add (a b : List Char) (n : Nat) :
    (a ++ b).take (a.length + n) = a ++ b.take n := by
  induction a with
  | nil => simp
  | cons c t ih =>
    simp only [List.cons_append, List.length_cons]
    rw [Nat.succ_add, List.take_succ_cons, ih]

theorem take_append_len (a b : List Char) : (a ++ b).take a.length = a := by
  have h := take_append_len_add a b 0
  simp only [List.take_zero, List.append_nil] at h
  rw [← Nat.add_zero a.length, h]

theorem pySlice_mid (a body rest : List Char) :
    pySlice (a ++ (body ++ rest)) a.length
      ((a.length + body.length : Nat) : Int) = body := by
  have hnn : ¬ (((a.length + body.length : Nat) : Int) < 0) := by omega
  have htn : ((a.length + body.length : Nat) : Int).toNat
      = a.length + body.length := by omega
  have hlen : a.length + body.length ≤ (a ++ (body ++ rest)).length := by
    simp only [List.length_append]
    omega
  simp only [pySlice]
  rw [if_neg hnn, htn, Nat.min_eq_left hlen, take_append_len_add,
    take_append_len, drop_append_len]

theorem stripCodeFences_json_fenced (body post : List Char)
    (hb : ∀ c ∈ body, c ≠ backtick) :
    stripCodeFences (fenceJson ++ (body ++ (fence ++ post))) = pyStrip body := by
  have h0 : findSub fenceJson (fenceJson ++ (body ++ (fence ++ post)))
      = some 0 := findSub_append_self _ _
  have h1 : (fenceJson ++ (body ++ (fence ++ post))).drop 7
      = body ++ (fence ++ post) := drop_append_len fenceJson _
  have h2 : findSub fence (body ++ (fence ++ post)) = some body.length :=
    findSub_fence_no_backtick body post hb
  unfold stripCodeFences
  rw [if_pos (by simp [pyContains, h0])]
  rw [h0]
  simp only [Nat.zero_add]
  rw [h1, h2]
  exact congrArg pyStrip (pySlice_mid fenceJson body (fence ++ post))

theorem stripCodeFences_plain_fenced (body post : List Char)
    (hb : ∀ c ∈ body, c ≠ backtick)
    (hnoj : findSub fenceJson (fence ++ (body ++ (fence ++ post))) = none) :
    stripCodeFences (fence ++ (body ++ (fence ++ post))) = pyStrip body := by
  have h0 : findSub fence (fence ++ (body ++ (fence ++ post))) = some 0 :=
    findSub_append_self _ _
  have h1 : (fence ++ (body ++ (fence ++ post))).drop 3
      = body ++ (fence ++ post) := drop_append_len fence _
  have h2 : findSub fence (body ++ (fence ++ post)) = some body.length :=
    findSub_fence_no_backtick body post hb
  unfold stripCodeFences
  rw [if_neg (by simp [pyContains, hnoj])]
  rw [if_pos (by simp [pyContains, h0])]
  rw [h0]
  simp only [Nat.zero_add]
  rw [h1, h2]
  exact congrArg pyStrip (pySlice_mid fence body (fence ++ post))

/-- C7: a response wrapped in a delimited code block — either the
json-tagged fence or the plain fence — has its delimiters stripped before
structural parsing (what reaches `json.loads` is exactly the stripped
inner body), and a response whose remaining text is not valid JSON makes
the parser raise (a `ValueError`, the `MalformedOutput` kind) instead of
returning a value. -/
theorem fenced_stripped_and_invalid_json_rejected
    (loads : List Char → Option JValue) (body post : List Char)
    (hb : ∀ c ∈ body, c ≠ backtick) :
    (stripCodeFences (fenceJson ++ (body ++ (fence ++ post))) = pyStrip body)
    ∧ (findSub fenceJson (fence ++ (body ++ (fence ++ post))) = none →
        stripCodeFences (fence ++ (body ++ (fence ++ post))) = pyStrip body)
    ∧ (∀ text : String, loads (stripCodeFences text.toList) = none →
        parse_json_response loads text
          = .error (.value ("Failed to parse JSON response: invalid JSON. Response: "
              ++ String.mk (stripCodeFences text.toList))))
    ∧ (∀ (text : String) (d : JValue),
        loads (stripCodeFences text.toList) = some d →
        parse_json_response loads text = .ok d) := by
  refine ⟨stripCodeFences_json_fenced body post hb,
    stripCodeFences_plain_fenced body post hb, ?_, ?_⟩
  · intro text hnone
    simp only [String.toList] at hnone
    simp [parse_json_response, String.toList, hnone]
  · intro text d hsome
    simp only [String.toList] at hsome
    simp [parse_json_response, String.toList, hsome]

theorem fenced_stripped_and_invalid_json_rejected_witness :
    (stripCodeFences (fenceJson ++ ("ok".toList ++ (fence ++ []))) = pyStrip "ok".toList)
    ∧ (findSub fenceJson (fence ++ ("ok".toList ++ (fence ++ []))) = none →
        stripCodeFences (fence ++ ("ok".toList ++ (fence ++ []))) = pyStrip "ok".toList)
    ∧ (∀ text : String,
        (fun _ => (none : Option JValue)) (stripCodeFences text.toList) = none →
        parse_json_response (fun _ => none) text
          = .error (.value ("Failed to parse JSON response: invalid JSON. Response: "
              ++ String.mk (stripCodeFences text.toList))))
    ∧ (∀ (text : String) (d : JValue),
        (fun _ => (none : Option JValue)) (stripCodeFences text.toList) = some d →
        parse_json_response (fun _ => none) text = .ok d) :=
  fenced_stripped_and_invalid_json_rejected (fun _ => none) "ok".toList []
    (by decide)

/- ### C10: webhook message transformation -/

/-- C10 counterexample: a dictionary entry whose `message` value is a
truthy non-string (the number 5) does not become a transcript entry and is
not silently dropped — the transformation raises a `ValidationError`, so no
transcript at all is produced for this input. -/
theorem transform_messages_nonstring_content_raises :
    transform_messages [JValue.obj [("message", JValue.num 5)]]
      = .error (.validation "Input should be a valid string")
    ∧ ¬ ∃ ts, transform_messages [JValue.obj [("message", JValue.num 5)]]
        = .ok ts := by
  refine ⟨rfl, ?_⟩
  rintro ⟨ts, h⟩
  rw [show transform_messages [JValue.obj [("message", JValue.num 5)]]
      = .error (.validation "Input should be a valid string") from rfl] at h
  exact Except.noConfusion h

/-- The transformation as the claim words it: keep exactly the dictionary
entries with a non-empty string `message`, in order, as (role, content)
pairs with the role defaulting to `"unknown"` when absent. -/
def claimedTransform (raw : List JValue) : List TranscriptMessage :=
  raw.filterMap fun m =>
    match m with
    | .obj fs =>
      match jLookup fs "message" with
      | some (.str c) =>
        if c ≠ "" then
          some ⟨(match jLookup fs "role" with
                 | some (.str r) => r
                 | _ => "unknown"), c⟩
        else none
      | _ => none
    | _ => none

/-- The field named `key`, when present, is a string. -/
def isStrOrAbsent (fs : List (String × JValue)) (key : String) : Bool :=
  match jLookup fs key with
  | none => true
  | some (.str _) => true
  | some _ => false

/-- A raw entry is well formed when its `role` and `message` fields, when
present, are strings (the situation the claim implicitly assumes). -/
def wellFormedMsg : JValue → Bool
  | .obj fs => isStrOrAbsent fs "role" && isStrOrAbsent fs "message"
  | _ => true

theorem isStrOrAbsent_cases (fs : List (String × JValue)) (key : String)
    (h : isStrOrAbsent fs key = true) :
    jLookup fs key = none ∨ ∃ s, jLookup fs key = some (JValue.str s) := by
  unfold isStrOrAbsent at h
  rcases hl : jLookup fs key with _ | v
  · exact Or.inl rfl
  · rw [hl] at h
    cases v with
    | str s => exact Or.inr ⟨s, rfl⟩
    | null => simp at h
    | bool b => simp at h
    | num q => simp at h
    | arr xs => simp at h
    | obj gs => simp at h

/-- C10 amended: for raw lists whose dictionary entries carry only string
(or absent) `role` and `message` fields, the transformation succeeds and
returns exactly the entries with a non-empty `message`, in their original
order, with the role defaulting to `"unknown"`; non-dictionary entries and
entries with empty content are silently dropped. -/
theorem transform_messages_matches_claim (raw : List JValue)
    (h : ∀ m ∈ raw, wellFormedMsg m = true) :
    transform_messages raw = .ok (claimedTransform raw) := by
  induction raw with
  | nil => rfl
  | cons m rest ih =>
    have hrest := ih (fun x hx => h x (by simp [hx]))
    have hm := h m (by simp)
    cases m with
    | obj fs =>
      simp only [wellFormedMsg, Bool.and_eq_true] at hm
      obtain ⟨hrole, hmsg⟩ := hm
      rcases isStrOrAbsent_cases fs "message" hmsg with hlm | ⟨s, hlm⟩
      · simp [transform_messages, claimedTransform, hlm, pyTruthy, hrest,
          List.filterMap_cons]
      · by_cases hs : s = ""
        · subst hs
          simp [transform_messages, claimedTransform, hlm, pyTruthy, hrest,
            List.filterMap_cons]
        · rcases isStrOrAbsent_cases fs "role" hrole with hlr | ⟨r, hlr⟩ <;>
            simp [transform_messages, claimedTransform, hlm, hlr, pyTruthy, hs,
              TranscriptMessage.construct, hrest, List.filterMap_cons,
              Except.map]
    | null => simp [transform_messages, claimedTransform, hrest]
    | bool b => simp [transform_messages, claimedTransform, hrest]
    | num q => simp [transform_messages, claimedTransform, hrest]
    | str s => simp [transform_messages, claimedTransform, hrest]
    | arr xs => simp [transform_messages, claimedTransform, hrest]

theorem transform_messages_matches_claim_witness :
    transform_messages
        [JValue.obj [("role", JValue.str "user"), ("message", JValue.str "Hello")],
         JValue.str "not a dict",
         JValue.obj [("role", JValue.str "assistant"), ("message", JValue.str "")],
         JValue.obj [("message", JValue.str "no role here")]]
      = .ok (claimedTransform
        [JValue.obj [("role", JValue.str "user"), ("message", JValue.str "Hello")],
         JValue.str "not a dict",
         JValue.obj [("role", JValue.str "assistant"), ("message", JValue.str "")],
         JValue.obj [("message", JValue.str "no role here")]]) :=
  transform_messages_matches_claim _ (by decide)
